import Mathlib

/-!
Shallow embedding of the snake game simulation core (snake.py).

The embedding follows the source code closely:

* `Point` is the dataclass of two integers; Python integers are modelled by `Int`.
* The snake body is the deque `self.snake`, modelled as a `List Cell` with the
  head at index 0; `appendleft` is `cons`, `pop` is `dropLast`/`getLast?`.
  Because the three popped-point slots are initialized to `None` in `reset` and
  can be appended to the body by `check_melon`, a body element is
  `Cell := Option Point` (`none` models Python's `None`).
* `pyxel.rndi a b` draws a uniform integer in `[a, b]`; it is modelled by a
  stream of raw natural-number pairs carried in the state, each draw mapped
  into the requested interval by `rndi`.  The rejection-sampling loops of
  `generate_apple` / `generate_melon` are modelled with fuel equal to the
  length of the remaining stream (one stream element is consumed per
  iteration), returning `none` when the stream is exhausted.
* Dictionary lookups (`SCORE_SPEED`, `SPEED_TO_FRAME_MAPPING`) become
  `Option`-valued functions; at call sites where Python indexes the dict
  directly (key always present there) the model uses `Option.getD`.
* `pyxel.FONT_HEIGHT = 6`, so `HEIGHT_SCORE = 6` and `HEIGHT_CONTROLS = 12`.
* Presentation-only state (sounds, drawing, logging, `last_inputs`,
  `frame_history`, debug mode) is omitted; it never feeds back into the
  simulation logic.
-/

namespace MagentaSnake

/-- Integer grid coordinate, the `Point` dataclass of the source. -/
structure Point where
  x : Int
  y : Int
deriving DecidableEq, Repr

/-- A snake body element: an actual coordinate, or Python's `None`
(the initial content of the popped-point slots). -/
abbrev Cell := Option Point

def WIDTH : Int := 30
def HEIGHT : Int := 45
def HEIGHT_SCORE : Int := 6
def HEIGHT_CONTROLS : Int := 12

def UP : Point := ⟨0, -1⟩
def DOWN : Point := ⟨0, 1⟩
def RIGHT : Point := ⟨1, 0⟩
def LEFT : Point := ⟨-1, 0⟩

def START : Point := ⟨5, 5 + HEIGHT_SCORE⟩

def DEFAULT_SPEED : Nat := 20
def MAX_TIME_BONUS : Int := 300
def MAX_SECONDS_PER_POINT : Int := 3
def COLLISION_WITH_WALLS : Bool := false

/-- The milestone table `SCORE_SPEED`: cumulative fruit count to speed tier. -/
def SCORE_SPEED : Nat → Option Nat
  | 0 => some 18
  | 2 => some 16
  | 5 => some 14
  | 9 => some 12
  | 12 => some 10
  | 17 => some 9
  | 23 => some 8
  | 30 => some 7
  | 38 => some 6
  | 49 => some 5
  | 60 => some 4
  | 75 => some 3
  | 88 => some 2
  | 99 => some 1
  | _ => none

/-- `SPEED_TO_FRAME_MAPPING`: speed tier to the 3-entry frame-interval pattern. -/
def SPEED_TO_FRAME_MAPPING : Nat → Option (List Nat)
  | 20 => some [8, 7, 7]
  | 19 => some [7, 7, 7]
  | 18 => some [7, 7, 6]
  | 17 => some [7, 6, 6]
  | 16 => some [6, 6, 6]
  | 15 => some [6, 6, 5]
  | 14 => some [6, 5, 5]
  | 13 => some [5, 5, 5]
  | 12 => some [5, 5, 4]
  | 11 => some [5, 4, 4]
  | 10 => some [4, 4, 4]
  | 9 => some [4, 4, 3]
  | 8 => some [4, 3, 3]
  | 7 => some [3, 3, 3]
  | 6 => some [3, 3, 2]
  | 5 => some [3, 2, 2]
  | 4 => some [2, 2, 2]
  | 3 => some [2, 2, 1]
  | 2 => some [2, 1, 1]
  | 1 => some [1, 1, 1]
  | _ => none

/-- Model of `pyxel.rndi a b`: maps a raw draw `r` into the inclusive
interval `[a, b]`. -/
def rndi (a b : Int) (r : Nat) : Int :=
  a + ((r % (b - a + 1).toNat : Nat) : Int)

/-- The playable area: the full width, minus the top score strip and the
bottom controls strip. -/
def in_bounds (p : Point) : Prop :=
  0 ≤ p.x ∧ p.x < WIDTH ∧ HEIGHT_SCORE ≤ p.y ∧ p.y < HEIGHT - HEIGHT_CONTROLS

instance (p : Point) : Decidable (in_bounds p) := by
  unfold in_bounds; infer_instance

/-! ### Direction update -/

/-- One directional command (mouse button region, keyboard arrow or d-pad). -/
inductive Cmd
  | up
  | down
  | left
  | right
deriving DecidableEq, Repr, Fintype

/-- Application of one directional command with the 180-degree filter,
as in each branch of `update_direction` (`if self.direction is not DOWN:
self.direction = UP`, etc.; the direction value is always one of the four
module-level constants, so identity comparison coincides with equality). -/
def apply_cmd (d : Point) (c : Cmd) : Point :=
  match c with
  | .up => if d ≠ DOWN then UP else d
  | .down => if d ≠ UP then DOWN else d
  | .left => if d ≠ RIGHT then LEFT else d
  | .right => if d ≠ LEFT then RIGHT else d

/-- `Snake.update_direction`: the mouse-button branch takes priority; the
keyboard path is an if/elif chain over the four keys (gamepad d-pad buttons
are or-ed with the same keys and need no separate model). -/
def update_direction (d : Point) (mouse : Option Cmd)
    (kUp kDown kLeft kRight : Bool) : Point :=
  match mouse with
  | some c => apply_cmd d c
  | none =>
      if kUp then apply_cmd d .up
      else if kDown then apply_cmd d .down
      else if kLeft then apply_cmd d .left
      else if kRight then apply_cmd d .right
      else d

/-- The vector opposite a direction. -/
def opposite (d : Point) : Point := ⟨-d.x, -d.y⟩

/-- The command whose target direction is opposite to `d`. -/
def reverse_cmd (d : Point) : Cmd :=
  if d = UP then .down
  else if d = DOWN then .up
  else if d = LEFT then .right
  else .left

/-! ### Fruit generation -/

/-- `Snake.melon_points`: the 2x2 block anchored at `(x, y)`. -/
def melon_points (x y : Int) : List Point :=
  [⟨x, y⟩, ⟨x + 1, y⟩, ⟨x, y + 1⟩, ⟨x + 1, y + 1⟩]

/-- The `while self.apple in snake_pixels` loop of `generate_apple`,
with fuel; each iteration consumes one pair of raw draws. -/
def apple_loop (snake : List Cell) :
    Nat → Point → List (Nat × Nat) → Option (Point × List (Nat × Nat))
  | 0, cand, rng =>
      if some cand ∈ snake then none else some (cand, rng)
  | fuel + 1, cand, rng =>
      if some cand ∈ snake then
        match rng with
        | [] => none
        | (rx, ry) :: rest =>
            apple_loop snake fuel
              ⟨rndi 0 (WIDTH - 1) rx,
               rndi (HEIGHT_SCORE + 1) (HEIGHT - HEIGHT_CONTROLS - 1) ry⟩ rest
      else some (cand, rng)

/-- `Snake.generate_apple`: the candidate starts at the snake head
(`self.apple = self.snake[0]`) and is re-drawn while it lies on the body. -/
def generate_apple (snake : List Cell) (head : Point) (rng : List (Nat × Nat)) :
    Option (Point × List (Nat × Nat)) :=
  apple_loop snake rng.length head rng

/-- Truthiness of `set(self.melon).intersection(snake_pixels)`. -/
def melon_intersects (snake : List Cell) (m : List Point) : Bool :=
  m.any fun c => decide (some c ∈ snake)

/-- The `while set(self.melon).intersection(snake_pixels)` loop of
`generate_melon`, with fuel. -/
def melon_loop (snake : List Cell) :
    Nat → List Point → List (Nat × Nat) → Option (List Point × List (Nat × Nat))
  | 0, cand, rng =>
      if melon_intersects snake cand then none else some (cand, rng)
  | fuel + 1, cand, rng =>
      if melon_intersects snake cand then
        match rng with
        | [] => none
        | (rx, ry) :: rest =>
            melon_loop snake fuel
              (melon_points (rndi 0 (WIDTH - 2) rx)
                (rndi (HEIGHT_SCORE + 2) (HEIGHT - HEIGHT_CONTROLS - 2) ry)) rest
      else some (cand, rng)

/-- `Snake.generate_melon`: the candidate block starts anchored at the snake
head and is re-drawn while it intersects the body. -/
def generate_melon (snake : List Cell) (head : Point) (rng : List (Nat × Nat)) :
    Option (List Point × List (Nat × Nat)) :=
  melon_loop snake rng.length (melon_points head.x head.y) rng

/-! ### Session state -/

/-- The mutable fields of the `Snake` object that feed the simulation logic. -/
structure GameState where
  direction : Point
  poppedPoint : Cell
  poppedPoint1 : Cell
  poppedPoint2 : Cell
  snake : List Cell
  apple : Cell
  melon : List Point
  death : Bool
  melons : Nat
  apples : Nat
  score : Nat
  timeBonus : Int
  lastEatenFrame : Int
  speed : Nat
  speedFrames : List Nat
  currentFrameSpeed : Nat
  frameCount : Int
  lastUpdateBefore : Int
  wallCollision : Bool
  rng : List (Nat × Nat)
deriving DecidableEq, Repr

/-- `Snake.death_event` (sound and logging omitted). -/
def death_event (s : GameState) : GameState :=
  { s with death := true }

/-- `Snake.add_time_bonus`. -/
def add_time_bonus (s : GameState) : GameState :=
  { s with
      timeBonus := s.timeBonus +
        min (max (MAX_SECONDS_PER_POINT * 60 + s.lastEatenFrame - s.frameCount) 0)
          MAX_TIME_BONUS
      lastEatenFrame := s.frameCount }

/-- `Snake.generate_fruit`: dispatches on membership of the current fruit
count in the milestone table. -/
def generate_fruit_state (s : GameState) : GameState :=
  match s.snake with
  | some h :: _ =>
      if (SCORE_SPEED (s.melons + s.apples)).isSome then
        match generate_melon s.snake h s.rng with
        | some (m, rest) => { s with melon := m, rng := rest }
        | none => s
      else
        match generate_apple s.snake h s.rng with
        | some (p, rest) => { s with apple := some p, rng := rest }
        | none => s
  | _ => s

/-- `Snake.get_new_snake_head`: in wrap mode (`wall = false`) the wrap
branches test the OLD head position against the edges. -/
def get_new_snake_head (wall : Bool) (oldHead dir : Point) : Point :=
  if wall = false then
    if oldHead.x < 0 then ⟨WIDTH - 1, oldHead.y + dir.y⟩
    else if WIDTH ≤ oldHead.x then ⟨0, oldHead.y + dir.y⟩
    else if oldHead.y < HEIGHT_SCORE then ⟨oldHead.x + dir.x, HEIGHT - HEIGHT_CONTROLS - 1⟩
    else if HEIGHT - HEIGHT_CONTROLS ≤ oldHead.y then ⟨oldHead.x + dir.x, HEIGHT_SCORE⟩
    else ⟨oldHead.x + dir.x, oldHead.y + dir.y⟩
  else ⟨oldHead.x + dir.x, oldHead.y + dir.y⟩

/-- `Snake.update_snake`: push the new head, shift the popped-point history,
pop the tail. -/
def update_snake (s : GameState) : GameState :=
  match s.snake with
  | some h :: _ =>
      let newHead := get_new_snake_head s.wallCollision h s.direction
      let snake1 := some newHead :: s.snake
      { s with
          snake := snake1.dropLast
          poppedPoint2 := s.poppedPoint1
          poppedPoint1 := s.poppedPoint
          poppedPoint := snake1.getLast?.getD none }
  | _ => s

/-- `Snake.rotate_speed`: `deque.rotate()` moves the last entry to the front. -/
def rotate_speed (s : GameState) : GameState :=
  let sf := match s.speedFrames with
            | [] => ([] : List Nat)
            | xs => xs.getLast?.getD 0 :: xs.dropLast
  { s with speedFrames := sf, currentFrameSpeed := sf.headD 0, lastUpdateBefore := 0 }

/-- The wall-collision branch of `Snake.check_death` (runs only when wall
collision is enabled). -/
def wall_death (s : GameState) : GameState :=
  if s.wallCollision then
    match s.snake with
    | some h :: _ =>
        if h.x < 0 ∨ h.y < HEIGHT_SCORE ∨ WIDTH ≤ h.x ∨ HEIGHT - HEIGHT_CONTROLS ≤ h.y
        then death_event s else s
    | _ => s
  else s

/-- `Snake.check_death`: the wall check, then the duplicate-length check
`len(snake) != len(set(snake))` (the `Point` hash is value-based, so the
Python set deduplicates by value equality, as `List.dedup` does). -/
def check_death (s : GameState) : GameState :=
  if (wall_death s).snake.length ≠ (wall_death s).snake.dedup.length
  then death_event (wall_death s) else wall_death s

/-- `Snake.check_melon`: on a hit, set the speed from the milestone table at
the CURRENT count, bump counters, add the time bonus, regenerate the fruit,
re-append the three popped-point slots, and reset the frame pattern. -/
def check_melon (s : GameState) : GameState :=
  match s.snake with
  | some h :: _ =>
      if h ∈ s.melon then
        let sp := (SCORE_SPEED (s.melons + s.apples)).getD s.speed
        let s1 := { s with speed := sp, melons := s.melons + 1, score := s.score + 3 }
        let s2 := add_time_bonus s1
        let s3 := generate_fruit_state s2
        let s4 := { s3 with
          snake := s3.snake ++ [s3.poppedPoint, s3.poppedPoint1, s3.poppedPoint2] }
        { s4 with speedFrames := (SPEED_TO_FRAME_MAPPING s4.speed).getD s4.speedFrames }
      else s
  | _ => s

/-- `Snake.check_apple`: on a hit, bump counters, add the time bonus,
re-append the most recently popped slot, and regenerate the fruit. -/
def check_apple (s : GameState) : GameState :=
  match s.snake with
  | some h :: _ =>
      if s.apple = some h then
        let s1 := { s with apples := s.apples + 1, score := s.score + 1 }
        let s2 := add_time_bonus s1
        let s3 := { s2 with snake := s2.snake ++ [s2.poppedPoint] }
        generate_fruit_state s3
      else s
  | _ => s

/-- `Snake.check_fruit`. -/
def check_fruit (s : GameState) : GameState :=
  if (SCORE_SPEED (s.melons + s.apples)).isSome then check_melon s else check_apple s

/-- The state after the move and the death check, before the fruit check. -/
def step_mid (s : GameState) : GameState :=
  check_death (update_snake (rotate_speed s))

/-- One executed simulation step: the body of
`if self.last_update_before == self.current_frame_speed:` in `Snake.update`. -/
def game_step (s : GameState) : GameState :=
  check_fruit (step_mid s)

/-- The unconditional frame-counter bookkeeping at the top of `Snake.update`. -/
def bump (s : GameState) : GameState :=
  { s with frameCount := s.frameCount + 1, lastUpdateBefore := s.lastUpdateBefore + 1 }

/-- One frame of `Snake.update`, with no mouse click and no restart, quit or
debug key active (the arrow keys are the parameters). -/
def update_frame (kUp kDown kLeft kRight : Bool) (s : GameState) : GameState :=
  let s1 := bump s
  if s1.death = false then
    let s2 := { s1 with direction := update_direction s1.direction none kUp kDown kLeft kRight }
    if s2.lastUpdateBefore = (s2.currentFrameSpeed : Int) then game_step s2 else s2
  else s1

/-- `Snake.reset` (logging and music omitted): the fruit is generated before
the speed fields are assigned, with the counts at zero. -/
def reset (wall : Bool) (rng : List (Nat × Nat)) : GameState :=
  let s0 : GameState :=
    { direction := RIGHT
      poppedPoint := none
      poppedPoint1 := none
      poppedPoint2 := none
      snake := [some START]
      apple := none
      melon := []
      death := false
      melons := 0
      apples := 0
      score := 0
      timeBonus := 0
      lastEatenFrame := 0
      speed := DEFAULT_SPEED
      speedFrames := []
      currentFrameSpeed := 0
      frameCount := 0
      lastUpdateBefore := 0
      wallCollision := wall
      rng := rng }
  let s1 := generate_fruit_state s0
  let sf := (SPEED_TO_FRAME_MAPPING DEFAULT_SPEED).getD []
  { s1 with
      speed := DEFAULT_SPEED
      speedFrames := sf
      currentFrameSpeed := sf.headD 0
      frameCount := 0
      lastUpdateBefore := 0 }

/-- Hit condition of `check_fruit ∘ check_melon`: the count is a milestone key
and the head lies on the melon block. -/
def melon_hit (s : GameState) : Bool :=
  (SCORE_SPEED (s.melons + s.apples)).isSome &&
    (match s.snake with
     | some h :: _ => decide (h ∈ s.melon)
     | _ => false)

/-- Hit condition of `check_fruit ∘ check_apple`: the count is not a milestone
key and the head equals the apple. -/
def apple_hit (s : GameState) : Bool :=
  (!(SCORE_SPEED (s.melons + s.apples)).isSome) &&
    (match s.snake with
     | some h :: _ => decide (s.apple = some h)
     | _ => false)

/-! ### A concrete run from reset

Raw random-draw stream chosen so that the first melon lands at `(6, 11)`
(adjacent to the start position `(5, 11)`), the first apple at `(7, 11)`, the
second melon at `(8, 11)` and the second apple at `(9, 11)`: the snake,
moving RIGHT with no input, eats a fruit at each of its first four executed
steps (frames 8, 15, 21 and 28). -/

def RNG0 : List (Nat × Nat) := [(6, 3), (7, 4), (8, 3), (9, 4), (0, 0)]

/-- The state after `n` frames of the no-input run seeded with `RNG0`. -/
def trace : Nat → GameState
  | 0 => reset false RNG0
  | n + 1 => update_frame false false false false (trace n)

/-! ### Concrete states used in closed statements

`S1` mirrors the state reached by the run `trace` just before the fruit check
of its second executed step (frame 15): one melon already eaten at count 0,
the head on the apple at `(7, 11)`, speed tier 18 with pattern `[7, 7, 6]`. -/

def S1 : GameState :=
  { direction := RIGHT
    poppedPoint := some ⟨5, 11⟩
    poppedPoint1 := none
    poppedPoint2 := none
    snake := [some ⟨7, 11⟩, some ⟨6, 11⟩]
    apple := some ⟨7, 11⟩
    melon := melon_points 8 11
    death := false
    melons := 1
    apples := 0
    score := 3
    timeBonus := 172
    lastEatenFrame := 8
    speed := 18
    speedFrames := [7, 7, 6]
    currentFrameSpeed := 7
    frameCount := 15
    lastUpdateBefore := 0
    wallCollision := false
    rng := [(20, 12)] }

/-- A state just before the fruit check of the first executed step after
reset: the head `(6, 11)` lies on the melon block, the popped-point history
holds one real tail segment and two `None` placeholders. -/
def M1 : GameState :=
  { direction := RIGHT
    poppedPoint := some ⟨5, 11⟩
    poppedPoint1 := none
    poppedPoint2 := none
    snake := [some ⟨6, 11⟩]
    apple := none
    melon := melon_points 6 11
    death := false
    melons := 0
    apples := 0
    score := 0
    timeBonus := 0
    lastEatenFrame := 0
    speed := 20
    speedFrames := [7, 8, 7]
    currentFrameSpeed := 7
    frameCount := 8
    lastUpdateBefore := 0
    wallCollision := false
    rng := [(7, 4)] }

/-- A mid-session state in which the next step consumes nothing: the fruit
count 1 is not a milestone key and the head is not on the apple. -/
def S5 : GameState :=
  { direction := RIGHT
    poppedPoint := none
    poppedPoint1 := none
    poppedPoint2 := none
    snake := [some ⟨20, 20⟩]
    apple := none
    melon := []
    death := false
    melons := 0
    apples := 1
    score := 1
    timeBonus := 0
    lastEatenFrame := 0
    speed := 20
    speedFrames := [8, 7, 7]
    currentFrameSpeed := 8
    frameCount := 3
    lastUpdateBefore := 3
    wallCollision := false
    rng := [] }

/-- A one-cell state used to seed `generate_fruit_state` instances. -/
def S7 : GameState :=
  { direction := RIGHT
    poppedPoint := none
    poppedPoint1 := none
    poppedPoint2 := none
    snake := [some ⟨5, 11⟩]
    apple := none
    melon := []
    death := false
    melons := 0
    apples := 0
    score := 0
    timeBonus := 0
    lastEatenFrame := 0
    speed := 20
    speedFrames := [8, 7, 7]
    currentFrameSpeed := 8
    frameCount := 0
    lastUpdateBefore := 0
    wallCollision := false
    rng := [(6, 3)] }

/-! ## Theorems -/

/-- C2 counterexample: in wrap mode, a single step with the head at the
leftmost column `x = 0` moving LEFT produces the head at `x = -1`, not at
`x = WIDTH - 1`: the wrap branch of `get_new_snake_head` tests the old head
position, so it fires only once the head is already off the grid. -/
theorem wrap_left_single_step_cex :
    get_new_snake_head false ⟨0, 11⟩ LEFT = ⟨-1, 11⟩ ∧
    get_new_snake_head false ⟨0, 11⟩ LEFT ≠ ⟨WIDTH - 1, 11⟩ := by
  decide

/-- C2 (corrected): in wrap mode with the head at the leftmost column and
direction LEFT, the step moves the head to column `-1` in the same row
(provided the row is inside the vertical play band, so no vertical wrap
branch fires); the wrap to the rightmost column `WIDTH - 1`, preserving the
row, happens on the step taken from any head position with `x < 0`. -/
theorem wrap_left_amended (x y : Int) (hx : x < 0)
    (hy1 : HEIGHT_SCORE ≤ y) (hy2 : y < HEIGHT - HEIGHT_CONTROLS) :
    get_new_snake_head false ⟨0, y⟩ LEFT = ⟨-1, y⟩ ∧
    get_new_snake_head false ⟨x, y⟩ LEFT = ⟨WIDTH - 1, y⟩ := by
  unfold get_new_snake_head LEFT WIDTH HEIGHT HEIGHT_SCORE HEIGHT_CONTROLS at *
  constructor
  · split_ifs <;> simp_all <;> omega
  · split_ifs <;> simp_all <;> omega

/-- Closed instance of `wrap_left_amended` at `x = -1`, `y = 11`. -/
theorem wrap_left_amended_witness :
    get_new_snake_head false ⟨0, 11⟩ LEFT = ⟨-1, 11⟩ ∧
    get_new_snake_head false ⟨-1, 11⟩ LEFT = ⟨WIDTH - 1, 11⟩ :=
  wrap_left_amended (-1) 11 (by decide) (by decide) (by decide)

lemma rndi_range (a b : Int) (r : Nat) (h : a ≤ b) :
    a ≤ rndi a b r ∧ rndi a b r ≤ b := by
  unfold rndi
  have hpos : 0 < (b - a + 1).toNat := by omega
  have hlt := Nat.mod_lt r hpos
  omega

lemma draw_in_bounds_apple (rx ry : Nat) :
    in_bounds ⟨rndi 0 (WIDTH - 1) rx,
      rndi (HEIGHT_SCORE + 1) (HEIGHT - HEIGHT_CONTROLS - 1) ry⟩ := by
  unfold in_bounds WIDTH HEIGHT HEIGHT_SCORE HEIGHT_CONTROLS
  have h1 := rndi_range 0 29 rx (by omega)
  have h2 := rndi_range 7 32 ry (by omega)
  norm_num
  refine ⟨?_, ?_, ?_, ?_⟩ <;> omega

lemma apple_loop_spec (snake : List Cell) :
    ∀ fuel cand rng p rest, apple_loop snake fuel cand rng = some (p, rest) →
      some p ∉ snake ∧ (p = cand ∨ in_bounds p) := by
  intro fuel
  induction fuel with
  | zero =>
      intro cand rng p rest h
      by_cases hmem : some cand ∈ snake
      · simp [apple_loop, hmem] at h
      · simp [apple_loop, hmem] at h
        obtain ⟨rfl, rfl⟩ := h
        exact ⟨hmem, Or.inl rfl⟩
  | succ fuel ih =>
      intro cand rng p rest h
      by_cases hmem : some cand ∈ snake
      · cases rng with
        | nil => simp [apple_loop, hmem] at h
        | cons rr rest2 =>
            obtain ⟨rx, ry⟩ := rr
            simp only [apple_loop, if_pos hmem] at h
            have h3 := ih _ _ _ _ h
            refine ⟨h3.1, Or.inr ?_⟩
            rcases h3.2 with rfl | hb
            · exact draw_in_bounds_apple rx ry
            · exact hb
      · simp [apple_loop, hmem] at h
        obtain ⟨rfl, rfl⟩ := h
        exact ⟨hmem, Or.inl rfl⟩

lemma melon_intersects_false (snake : List Cell) (m : List Point)
    (h : melon_intersects snake m = false) : ∀ c ∈ m, some c ∉ snake := by
  intro c hc
  unfold melon_intersects at h
  simp only [List.any_eq_false, decide_eq_true_eq] at h
  exact h c hc

lemma draw_in_bounds_melon (rx ry : Nat) :
    ∀ c ∈ melon_points (rndi 0 (WIDTH - 2) rx)
        (rndi (HEIGHT_SCORE + 2) (HEIGHT - HEIGHT_CONTROLS - 2) ry), in_bounds c := by
  have h1 := rndi_range 0 28 rx (by omega)
  have h2 := rndi_range 8 31 ry (by omega)
  intro c hc
  unfold melon_points WIDTH HEIGHT HEIGHT_SCORE HEIGHT_CONTROLS at hc
  norm_num at hc
  unfold in_bounds WIDTH HEIGHT HEIGHT_SCORE HEIGHT_CONTROLS
  rcases hc with rfl | rfl | rfl | rfl <;> (refine ⟨?_, ?_, ?_, ?_⟩ <;> norm_num <;> omega)

lemma melon_loop_spec (snake : List Cell) :
    ∀ fuel cand rng m rest, melon_loop snake fuel cand rng = some (m, rest) →
      (∀ c ∈ m, some c ∉ snake) ∧
      (m = cand ∨ ∃ rx ry, m = melon_points (rndi 0 (WIDTH - 2) rx)
        (rndi (HEIGHT_SCORE + 2) (HEIGHT - HEIGHT_CONTROLS - 2) ry)) := by
  intro fuel
  induction fuel with
  | zero =>
      intro cand rng m rest h
      by_cases hmem : melon_intersects snake cand = true
      · simp [melon_loop, hmem] at h
      · simp [melon_loop, hmem] at h
        obtain ⟨rfl, rfl⟩ := h
        exact ⟨melon_intersects_false snake cand (by simpa using hmem), Or.inl rfl⟩
  | succ fuel ih =>
      intro cand rng m rest h
      by_cases hmem : melon_intersects snake cand = true
      · cases rng with
        | nil => simp [melon_loop, hmem] at h
        | cons rr rest2 =>
            obtain ⟨rx, ry⟩ := rr
            simp only [melon_loop, if_pos hmem] at h
            have h3 := ih _ _ _ _ h
            refine ⟨h3.1, Or.inr ?_⟩
            rcases h3.2 with rfl | hb
            · exact ⟨rx, ry, rfl⟩
            · exact hb
      · simp [melon_loop, hmem] at h
        obtain ⟨rfl, rfl⟩ := h
        exact ⟨melon_intersects_false snake cand (by simpa using hmem), Or.inl rfl⟩

lemma generate_melon_shape (snake : List Cell) (head : Point)
    (rng : List (Nat × Nat)) (m : List Point) (rest : List (Nat × Nat))
    (h : generate_melon snake head rng = some (m, rest)) :
    ∃ x y, m = melon_points x y := by
  have h2 := melon_loop_spec snake rng.length (melon_points head.x head.y) rng m rest h
  rcases h2.2 with rfl | ⟨rx, ry, rfl⟩
  · exact ⟨head.x, head.y, rfl⟩
  · exact ⟨_, _, rfl⟩

/-- C6 (confirmed): whenever `generate_apple` returns, the apple lies in the
play bounds and off the snake body; whenever `generate_melon` returns, all
four cells of the 2x2 block lie in the play bounds and none lies on the body.
The hypothesis `some head ∈ snake` holds at every call site: the initial
candidate is the snake head itself (`self.apple = self.snake[0]`,
`self.melon_points(self.snake[0].x, self.snake[0].y)`). -/
theorem fruit_placement_disjoint
    (snake : List Cell) (head : Point) (hhead : some head ∈ snake)
    (rngA rngM : List (Nat × Nat)) (pA : Point) (restA : List (Nat × Nat))
    (hA : generate_apple snake head rngA = some (pA, restA))
    (m : List Point) (restM : List (Nat × Nat))
    (hM : generate_melon snake head rngM = some (m, restM)) :
    (in_bounds pA ∧ some pA ∉ snake) ∧
    ∀ c ∈ m, in_bounds c ∧ some c ∉ snake := by
  have hA2 := apple_loop_spec snake rngA.length head rngA pA restA hA
  have hM2 := melon_loop_spec snake rngM.length (melon_points head.x head.y) rngM m restM hM
  constructor
  · refine ⟨?_, hA2.1⟩
    rcases hA2.2 with rfl | hb
    · exact absurd hhead hA2.1
    · exact hb
  · intro c hc
    refine ⟨?_, hM2.1 c hc⟩
    rcases hM2.2 with rfl | ⟨rx, ry, rfl⟩
    · have hhm : head ∈ melon_points head.x head.y := by
        unfold melon_points
        exact List.mem_cons_self _ _
      exact absurd hhead (hM2.1 head hhm)
    · exact draw_in_bounds_melon rx ry c hc

/-- Closed instance of `fruit_placement_disjoint` on the one-cell body
`[(5, 11)]` with single-draw streams. -/
theorem fruit_placement_disjoint_witness :
    (in_bounds ⟨7, 11⟩ ∧ some (⟨7, 11⟩ : Point) ∉ [some (⟨5, 11⟩ : Point)]) ∧
    ∀ c ∈ melon_points 6 11, in_bounds c ∧ some c ∉ [some (⟨5, 11⟩ : Point)] :=
  fruit_placement_disjoint [some ⟨5, 11⟩] ⟨5, 11⟩ (by decide)
    [(7, 4)] [(6, 3)] ⟨7, 11⟩ [] (by decide) (melon_points 6 11) [] (by decide)

/-- C8 (confirmed): `add_time_bonus` adds exactly
`clamp(MAX_SECONDS_PER_POINT * 60 - (frame_count - last_eaten_frame), 0,
MAX_TIME_BONUS)` to `time_bonus`, the increment is between `0` and
`MAX_TIME_BONUS`, `last_eaten_frame` becomes the current `frame_count`, and
`time_bonus` never decreases. -/
theorem add_time_bonus_spec (s : GameState) :
    (add_time_bonus s).timeBonus = s.timeBonus +
      min (max (MAX_SECONDS_PER_POINT * 60 - (s.frameCount - s.lastEatenFrame)) 0)
        MAX_TIME_BONUS ∧
    0 ≤ min (max (MAX_SECONDS_PER_POINT * 60 - (s.frameCount - s.lastEatenFrame)) 0)
        MAX_TIME_BONUS ∧
    min (max (MAX_SECONDS_PER_POINT * 60 - (s.frameCount - s.lastEatenFrame)) 0)
        MAX_TIME_BONUS ≤ MAX_TIME_BONUS ∧
    (add_time_bonus s).lastEatenFrame = s.frameCount ∧
    s.timeBonus ≤ (add_time_bonus s).timeBonus := by
  unfold add_time_bonus MAX_SECONDS_PER_POINT MAX_TIME_BONUS
  refine ⟨?_, ?_, ?_, rfl, ?_⟩ <;> simp <;> omega

/-- C9 (confirmed): for every frame and every input, `update_direction` never
produces the vector opposite the current direction; in particular the command
that would reverse the direction leaves it unchanged. -/
theorem direction_never_reversed (d : Point)
    (hd : d = UP ∨ d = DOWN ∨ d = LEFT ∨ d = RIGHT)
    (mouse : Option Cmd) (kUp kDown kLeft kRight : Bool) :
    update_direction d mouse kUp kDown kLeft kRight ≠ opposite d ∧
    update_direction d (some (reverse_cmd d)) kUp kDown kLeft kRight = d := by
  rcases hd with rfl | rfl | rfl | rfl <;>
    · revert mouse kUp kDown kLeft kRight
      decide

/-- Closed instance of `direction_never_reversed`: from UP, a DOWN mouse
command is rejected and the direction stays UP. -/
theorem direction_never_reversed_witness :
    update_direction UP (some Cmd.down) false false false false ≠ opposite UP ∧
    update_direction UP (some (reverse_cmd UP)) false false false false = UP :=
  direction_never_reversed UP (Or.inl rfl) (some Cmd.down) false false false false

/-! ### Structural lemmas on the session operations -/

lemma generate_fruit_state_eq (s : GameState) :
    ∃ a m r, generate_fruit_state s = { s with apple := a, melon := m, rng := r } := by
  unfold generate_fruit_state
  split
  · split
    · split
      · exact ⟨s.apple, _, _, rfl⟩
      · exact ⟨s.apple, s.melon, s.rng, rfl⟩
    · split
      · exact ⟨_, s.melon, _, rfl⟩
      · exact ⟨s.apple, s.melon, s.rng, rfl⟩
  · exact ⟨s.apple, s.melon, s.rng, rfl⟩

lemma gfs_snake (s : GameState) : (generate_fruit_state s).snake = s.snake := by
  obtain ⟨a, m, r, hg⟩ := generate_fruit_state_eq s; rw [hg]

lemma gfs_speed (s : GameState) : (generate_fruit_state s).speed = s.speed := by
  obtain ⟨a, m, r, hg⟩ := generate_fruit_state_eq s; rw [hg]

lemma gfs_speedFrames (s : GameState) :
    (generate_fruit_state s).speedFrames = s.speedFrames := by
  obtain ⟨a, m, r, hg⟩ := generate_fruit_state_eq s; rw [hg]

lemma gfs_popped (s : GameState) :
    (generate_fruit_state s).poppedPoint = s.poppedPoint ∧
    (generate_fruit_state s).poppedPoint1 = s.poppedPoint1 ∧
    (generate_fruit_state s).poppedPoint2 = s.poppedPoint2 := by
  obtain ⟨a, m, r, hg⟩ := generate_fruit_state_eq s; rw [hg]; exact ⟨rfl, rfl, rfl⟩

lemma gfs_melons (s : GameState) : (generate_fruit_state s).melons = s.melons := by
  obtain ⟨a, m, r, hg⟩ := generate_fruit_state_eq s; rw [hg]

lemma gfs_apples (s : GameState) : (generate_fruit_state s).apples = s.apples := by
  obtain ⟨a, m, r, hg⟩ := generate_fruit_state_eq s; rw [hg]

lemma gfs_score (s : GameState) : (generate_fruit_state s).score = s.score := by
  obtain ⟨a, m, r, hg⟩ := generate_fruit_state_eq s; rw [hg]

lemma wall_death_eq (s : GameState) : ∃ b, wall_death s = { s with death := b } := by
  unfold wall_death death_event
  split
  · split
    · split
      · exact ⟨true, rfl⟩
      · exact ⟨s.death, rfl⟩
    · exact ⟨s.death, rfl⟩
  · exact ⟨s.death, rfl⟩

lemma check_death_eq (s : GameState) : ∃ b, check_death s = { s with death := b } := by
  obtain ⟨b, hw⟩ := wall_death_eq s
  unfold check_death
  rw [hw]
  split
  · exact ⟨true, rfl⟩
  · exact ⟨b, rfl⟩

lemma update_snake_snake (s : GameState) (h : Point) (t : List Cell)
    (hs : s.snake = some h :: t) :
    (update_snake s).snake =
      some (get_new_snake_head s.wallCollision h s.direction) :: (some h :: t).dropLast := by
  unfold update_snake
  rw [hs]
  rfl

lemma step_mid_snake (s : GameState) (h : Point) (t : List Cell)
    (hs : s.snake = some h :: t) :
    (step_mid s).snake =
      some (get_new_snake_head s.wallCollision h s.direction) :: (some h :: t).dropLast ∧
    (step_mid s).snake.length = s.snake.length := by
  have h1 : (rotate_speed s).snake = s.snake := rfl
  have h2 := update_snake_snake (rotate_speed s) h t (h1.trans hs)
  obtain ⟨b, hcd⟩ := check_death_eq (update_snake (rotate_speed s))
  unfold step_mid
  rw [hcd]
  have h3 : ({ update_snake (rotate_speed s) with death := b }).snake
      = (update_snake (rotate_speed s)).snake := rfl
  rw [h3, h2]
  refine ⟨rfl, ?_⟩
  rw [hs]
  simp [List.length_dropLast]

lemma check_apple_nil (u : GameState) (hu : u.snake = []) : check_apple u = u := by
  unfold check_apple; rw [hu]

lemma check_apple_nonehead (u : GameState) (t : List Cell)
    (hu : u.snake = none :: t) : check_apple u = u := by
  unfold check_apple; rw [hu]

lemma check_apple_nohit (u : GameState) (h : Point) (t : List Cell)
    (hu : u.snake = some h :: t) (ha : ¬ u.apple = some h) : check_apple u = u := by
  unfold check_apple
  rw [hu]
  simp only [if_neg ha]

lemma check_apple_hit (u : GameState) (h : Point) (t : List Cell)
    (hu : u.snake = some h :: t) (ha : u.apple = some h) :
    (check_apple u).snake = u.snake ++ [u.poppedPoint] ∧
    (check_apple u).speed = u.speed ∧
    (check_apple u).speedFrames = u.speedFrames ∧
    (check_apple u).apples = u.apples + 1 ∧
    (check_apple u).melons = u.melons ∧
    (check_apple u).score = u.score + 1 := by
  unfold check_apple
  rw [hu]
  simp only [if_pos ha]
  refine ⟨?_, ?_, ?_, ?_, ?_, ?_⟩ <;>
    simp [gfs_snake, gfs_speed, gfs_speedFrames, gfs_melons, gfs_apples, gfs_score,
      add_time_bonus]

lemma check_melon_nohit (u : GameState) (h : Point) (t : List Cell)
    (hu : u.snake = some h :: t) (hm : ¬ h ∈ u.melon) : check_melon u = u := by
  unfold check_melon
  rw [hu]
  simp only [if_neg hm]

lemma check_melon_hit (u : GameState) (h : Point) (t : List Cell)
    (hu : u.snake = some h :: t) (hm : h ∈ u.melon) :
    (check_melon u).snake =
      u.snake ++ [u.poppedPoint, u.poppedPoint1, u.poppedPoint2] ∧
    (check_melon u).speed = (SCORE_SPEED (u.melons + u.apples)).getD u.speed ∧
    (check_melon u).speedFrames =
      (SPEED_TO_FRAME_MAPPING ((SCORE_SPEED (u.melons + u.apples)).getD u.speed)).getD
        u.speedFrames ∧
    (check_melon u).melons = u.melons + 1 ∧
    (check_melon u).apples = u.apples ∧
    (check_melon u).score = u.score + 3 := by
  unfold check_melon
  rw [hu]
  simp only [if_pos hm]
  refine ⟨?_, ?_, ?_, ?_, ?_, ?_⟩ <;>
    simp [gfs_snake, gfs_speed, gfs_speedFrames, gfs_melons, gfs_apples, gfs_score,
      add_time_bonus, (gfs_popped _).1, (gfs_popped _).2.1, (gfs_popped _).2.2]

/-! ### C1 -/

/-- C1 counterexample: in the (reachable) state `S1` the head sits on the
apple; `check_apple` consumes it, bringing the fruit count to 2, whose
milestone tier is 16 with pattern `[6, 6, 6]` — but the speed stays 18 and
the frame pattern is not reset: the apple path never recomputes them. -/
theorem speed_recompute_cex :
    (check_apple S1).apples + (check_apple S1).melons = 2 ∧
    SCORE_SPEED 2 = some 16 ∧
    SPEED_TO_FRAME_MAPPING 16 = some [6, 6, 6] ∧
    (check_apple S1).speed = 18 ∧
    ¬((check_apple S1).speed = 16 ∧ (check_apple S1).speedFrames = [6, 6, 6]) := by
  decide

/-- C1 (corrected): only the melon path recomputes the speed —
`check_melon` sets the speed to the milestone-table tier at the count BEFORE
the increment (the milestone just reached) and resets `speed_frames` to that
tier's pattern, while `check_apple` leaves both `speed` and `speed_frames`
unchanged on every consumption. -/
theorem speed_recompute_amended (s : GameState) (h : Point) (t : List Cell)
    (hs : s.snake = some h :: t) (hm : h ∈ s.melon)
    (sp : Nat) (hsp : SCORE_SPEED (s.melons + s.apples) = some sp)
    (pat : List Nat) (hpat : SPEED_TO_FRAME_MAPPING sp = some pat) :
    ((check_melon s).speed = sp ∧ (check_melon s).speedFrames = pat) ∧
    ∀ u : GameState,
      (check_apple u).speed = u.speed ∧ (check_apple u).speedFrames = u.speedFrames := by
  constructor
  · have hc := check_melon_hit s h t hs hm
    constructor
    · rw [hc.2.1, hsp]; rfl
    · rw [hc.2.2.1, hsp]
      simp only [Option.getD_some]
      rw [hpat]
      rfl
  · intro u
    rcases hu : u.snake with _ | ⟨c, t2⟩
    · rw [check_apple_nil u hu]; exact ⟨rfl, rfl⟩
    · rcases c with _ | p
      · rw [check_apple_nonehead u t2 hu]; exact ⟨rfl, rfl⟩
      · by_cases ha : u.apple = some p
        · have hc := check_apple_hit u p t2 hu ha
          exact ⟨hc.2.1, hc.2.2.1⟩
        · rw [check_apple_nohit u p t2 hu ha]; exact ⟨rfl, rfl⟩

/-- Closed instance of `speed_recompute_amended` at the first-melon state
`M1`: the melon at count 0 sets the speed to tier 18 with pattern
`[7, 7, 6]`. -/
theorem speed_recompute_amended_witness :
    ((check_melon M1).speed = 18 ∧ (check_melon M1).speedFrames = [7, 7, 6]) ∧
    ∀ u : GameState,
      (check_apple u).speed = u.speed ∧ (check_apple u).speedFrames = u.speedFrames :=
  speed_recompute_amended M1 ⟨6, 11⟩ [] rfl (by decide) 18 (by decide) [7, 7, 6] (by decide)

/-! ### C7 -/

lemma gfs_apple_of_milestone (s : GameState) (h : Point) (t : List Cell)
    (hs : s.snake = some h :: t)
    (hsome : (SCORE_SPEED (s.melons + s.apples)).isSome = true) :
    (generate_fruit_state s).apple = s.apple := by
  unfold generate_fruit_state
  rw [hs]
  simp only [hsome, if_true]
  split <;> rfl

lemma gfs_melon_value (s : GameState) (h : Point) (t : List Cell)
    (hs : s.snake = some h :: t)
    (hsome : (SCORE_SPEED (s.melons + s.apples)).isSome = true)
    (m : List Point) (rest : List (Nat × Nat))
    (hgen : generate_melon s.snake h s.rng = some (m, rest)) :
    (generate_fruit_state s).melon = m := by
  unfold generate_fruit_state
  rw [hs] at hgen ⊢
  simp only [hsome, if_true]
  rw [hgen]

lemma gfs_melon_of_no_milestone (s : GameState) (h : Point) (t : List Cell)
    (hs : s.snake = some h :: t)
    (hnone : (SCORE_SPEED (s.melons + s.apples)).isSome = false) :
    (generate_fruit_state s).melon = s.melon := by
  unfold generate_fruit_state
  rw [hs]
  simp only [hnone, Bool.false_eq_true, if_false]
  split <;> rfl

lemma gfs_apple_value (s : GameState) (h : Point) (t : List Cell)
    (hs : s.snake = some h :: t)
    (hnone : (SCORE_SPEED (s.melons + s.apples)).isSome = false)
    (p : Point) (rest : List (Nat × Nat))
    (hgen : generate_apple s.snake h s.rng = some (p, rest)) :
    (generate_fruit_state s).apple = some p := by
  unfold generate_fruit_state
  rw [hs] at hgen ⊢
  simp only [hnone, Bool.false_eq_true, if_false]
  rw [hgen]

/-- C7 (confirmed): `generate_fruit` produces a melon — a 4-cell 2x2 block,
leaving the apple untouched — exactly when the current fruit count
`apples + melons` is a key of the milestone table `SCORE_SPEED`, and a
single-cell apple — leaving the melon untouched — otherwise. -/
theorem generate_fruit_kind (s : GameState) (h : Point) (t : List Cell)
    (hs : s.snake = some h :: t) :
    ((SCORE_SPEED (s.melons + s.apples)).isSome = true →
      (generate_fruit_state s).apple = s.apple ∧
      ∀ m rest, generate_melon s.snake h s.rng = some (m, rest) →
        (generate_fruit_state s).melon = m ∧ m.length = 4 ∧
        ∃ x y, m = melon_points x y) ∧
    ((SCORE_SPEED (s.melons + s.apples)).isSome = false →
      (generate_fruit_state s).melon = s.melon ∧
      ∀ p rest, generate_apple s.snake h s.rng = some (p, rest) →
        (generate_fruit_state s).apple = some p) := by
  constructor
  · intro hsome
    refine ⟨gfs_apple_of_milestone s h t hs hsome, ?_⟩
    intro m rest hgen
    refine ⟨gfs_melon_value s h t hs hsome m rest hgen, ?_,
      generate_melon_shape s.snake h s.rng m rest hgen⟩
    obtain ⟨x, y, hxy⟩ := generate_melon_shape s.snake h s.rng m rest hgen
    rw [hxy]
    rfl
  · intro hnone
    refine ⟨gfs_melon_of_no_milestone s h t hs hnone, ?_⟩
    intro p rest hgen
    exact gfs_apple_value s h t hs hnone p rest hgen

/-- Closed instance of `generate_fruit_kind` at the reset-like state `S7`
(count 0, a milestone key): the generated fruit is the melon block anchored
at `(6, 11)`, a 4-cell 2x2 block. -/
theorem generate_fruit_kind_witness :
    (generate_fruit_state S7).melon = melon_points 6 11 ∧
    (melon_points 6 11).length = 4 := by
  have hk := (generate_fruit_kind S7 ⟨5, 11⟩ [] rfl).1 (by decide)
  have h2 := hk.2 (melon_points 6 11) [] (by decide)
  exact ⟨h2.1, h2.2.1⟩

/-! ### C5 -/

/-- C5 (confirmed): across one executed step (`rotate_speed`, `update_snake`,
`check_death`, `check_fruit`), the body length is unchanged when no fruit is
consumed, grows by exactly 1 when the apple is consumed, and by exactly 3
when the melon is consumed. -/
theorem step_length_delta (s : GameState) (h : Point) (t : List Cell)
    (hs : s.snake = some h :: t) :
    (melon_hit (step_mid s) = true →
      (game_step s).snake.length = s.snake.length + 3) ∧
    (apple_hit (step_mid s) = true →
      (game_step s).snake.length = s.snake.length + 1) ∧
    (melon_hit (step_mid s) = false → apple_hit (step_mid s) = false →
      (game_step s).snake.length = s.snake.length) := by
  obtain ⟨hu, hlen⟩ := step_mid_snake s h t hs
  have hgs : game_step s = check_fruit (step_mid s) := rfl
  refine ⟨?_, ?_, ?_⟩
  · intro hmh
    unfold melon_hit at hmh
    rw [hu] at hmh
    simp only [Bool.and_eq_true, decide_eq_true_eq] at hmh
    have hcf : check_fruit (step_mid s) = check_melon (step_mid s) := by
      unfold check_fruit
      rw [if_pos hmh.1]
    rw [hgs, hcf, (check_melon_hit (step_mid s) _ _ hu hmh.2).1]
    rw [List.length_append, hlen]
    rfl
  · intro hah
    unfold apple_hit at hah
    rw [hu] at hah
    simp only [Bool.and_eq_true, Bool.not_eq_eq_eq_not, Bool.not_true,
      decide_eq_true_eq] at hah
    have hcf : check_fruit (step_mid s) = check_apple (step_mid s) := by
      unfold check_fruit
      rw [if_neg (by simp [hah.1])]
    rw [hgs, hcf, (check_apple_hit (step_mid s) _ _ hu hah.2).1]
    rw [List.length_append, hlen]
    rfl
  · intro hmh hah
    unfold melon_hit at hmh
    unfold apple_hit at hah
    rw [hu] at hmh hah
    by_cases hk : (SCORE_SPEED ((step_mid s).melons + (step_mid s).apples)).isSome = true
    · have hcf : check_fruit (step_mid s) = check_melon (step_mid s) := by
        unfold check_fruit
        rw [if_pos hk]
      simp only [hk, Bool.true_and] at hmh
      have hnm := of_decide_eq_false hmh
      rw [hgs, hcf, check_melon_nohit (step_mid s) _ _ hu hnm]
      exact hlen
    · have hcf : check_fruit (step_mid s) = check_apple (step_mid s) := by
        unfold check_fruit
        rw [if_neg hk]
      simp only [Bool.not_eq_true] at hk
      simp only [hk, Bool.not_false, Bool.true_and] at hah
      have hna := of_decide_eq_false hah
      rw [hgs, hcf, check_apple_nohit (step_mid s) _ _ hu hna]
      exact hlen

/-- Closed instance of `step_length_delta` at `S5`, where the step consumes
nothing and the body length stays 1. -/
theorem step_length_delta_witness :
    (game_step S5).snake.length = S5.snake.length :=
  (step_length_delta S5 ⟨20, 20⟩ [] rfl).2.2 (by decide) (by decide)

/-! ### C3 -/

/-- C3 counterexample: in the no-input run `trace`, at the end of frame 21
(the third executed step, a melon consumption whose re-appended popped
history still contains the live coordinate `(5, 11)`), the death flag is
false yet the body holds the coordinate `(5, 11)` twice. -/
theorem alive_dup_cex :
    (trace 21).death = false ∧
    (trace 21).snake.count (some ⟨5, 11⟩) = 2 ∧
    ¬ (trace 21).snake.Nodup := by
  decide

/-- C3 (corrected): the no-duplicate invariant holds at the point the death
check runs — whenever `check_death` leaves the death flag false, the body it
examined (unchanged by the check) has no duplicate entries.  It does NOT hold
at end of tick: the fruit check of the same tick can re-append popped
segments that are still in the body (see the counterexample), and such
duplicates are only caught by the NEXT step's death check. -/
theorem alive_nodup_at_death_check (s : GameState)
    (hd : (check_death s).death = false) :
    (check_death s).snake = s.snake ∧ s.snake.Nodup := by
  obtain ⟨b, hb⟩ := check_death_eq s
  refine ⟨by rw [hb], ?_⟩
  obtain ⟨b2, hw⟩ := wall_death_eq s
  unfold check_death at hd
  rw [hw] at hd
  split at hd
  · simp [death_event] at hd
  · rename_i hlen
    have hdd : s.snake.length = s.snake.dedup.length := by
      simpa using hlen
    have hsub := List.dedup_sublist s.snake
    have heq := hsub.eq_of_length hdd.symm
    exact List.dedup_eq_self.mp heq

/-- Closed instance of `alive_nodup_at_death_check` at the reset state of the
run `trace`. -/
theorem alive_nodup_at_death_check_witness :
    (check_death (trace 0)).snake = (trace 0).snake ∧ (trace 0).snake.Nodup :=
  alive_nodup_at_death_check (trace 0) (by decide)

/-! ### C4 -/

/-- C4 counterexample: at frame 28 of the run `trace`, the death check
transitions the session to Dead (stale duplicate segments), yet `check_fruit`
still runs in that same tick and consumes the apple: the apple count, the
score and the body length all change after the Dead transition. -/
theorem fruit_after_death_cex :
    (trace 27).death = false ∧
    (trace 28).death = true ∧
    (trace 28).apples = (trace 27).apples + 1 ∧
    (trace 28).score = (trace 27).score + 1 ∧
    (trace 28).snake.length = (trace 27).snake.length + 1 := by
  decide

/-- C4 (corrected): the Alive guard applies only at the START of a tick —
once the death flag is observed true, a frame changes nothing but the frame
counters; but within the very tick in which `check_death` sets the flag,
`check_fruit` still runs unguarded and can consume fruit (see the
counterexample). -/
theorem dead_tick_noop_amended (s : GameState) (hd : s.death = true)
    (kUp kDown kLeft kRight : Bool) :
    (update_frame kUp kDown kLeft kRight s).snake = s.snake ∧
    (update_frame kUp kDown kLeft kRight s).apples = s.apples ∧
    (update_frame kUp kDown kLeft kRight s).melons = s.melons ∧
    (update_frame kUp kDown kLeft kRight s).score = s.score ∧
    (update_frame kUp kDown kLeft kRight s).timeBonus = s.timeBonus ∧
    (update_frame kUp kDown kLeft kRight s).death = true := by
  unfold update_frame bump
  simp [hd]

/-- Closed instance of `dead_tick_noop_amended` at the dead state reached by
the run `trace` after 28 frames. -/
theorem dead_tick_noop_amended_witness :
    (update_frame false false false false (trace 28)).snake = (trace 28).snake ∧
    (update_frame false false false false (trace 28)).apples = (trace 28).apples ∧
    (update_frame false false false false (trace 28)).melons = (trace 28).melons ∧
    (update_frame false false false false (trace 28)).score = (trace 28).score ∧
    (update_frame false false false false (trace 28)).timeBonus = (trace 28).timeBonus ∧
    (update_frame false false false false (trace 28)).death = true :=
  dead_tick_noop_amended (trace 28) (by decide) false false false false

/-! ### C10 -/

/-- C10 counterexample: in the run `trace`, the first executed step (frame 8)
consumes a melon and appends the two `None` placeholders — yet at the
following executed step (frame 15) the session is still alive: one
placeholder was popped before the death check, which therefore sees no
duplicate. -/
theorem melon_placeholder_death_cex :
    (trace 8).snake.count none = 2 ∧
    (trace 15).death = false := by
  decide

/-- C10 (corrected): a melon consumed before three steps have executed does
append the uninitialized `None` placeholders to the body (so the body holds
entries that are not coordinates), but the session does NOT die on the
following step: the tail placeholder is popped at the start of that step, so
the death check sees at most one placeholder and no duplicate. -/
theorem melon_placeholder_amended :
    (∀ (s : GameState) (h : Point) (t : List Cell),
        s.snake = some h :: t → h ∈ s.melon →
        s.poppedPoint1 = none → s.poppedPoint2 = none →
        (check_melon s).snake = s.snake ++ [s.poppedPoint, none, none]) ∧
    (trace 8).snake = [some ⟨6, 11⟩, some ⟨5, 11⟩, none, none] ∧
    (trace 15).death = false ∧
    (trace 15).snake =
      [some ⟨7, 11⟩, some ⟨6, 11⟩, some ⟨5, 11⟩, none, none] := by
  refine ⟨?_, by decide, by decide, by decide⟩
  intro s h t hs hm h1 h2
  have hc := (check_melon_hit s h t hs hm).1
  rw [hc, h1, h2]

/-- Closed instance of the universally quantified part of
`melon_placeholder_amended` at the first-melon state `M1`. -/
theorem melon_placeholder_amended_witness :
    (check_melon M1).snake = M1.snake ++ [M1.poppedPoint, none, none] :=
  melon_placeholder_amended.1 M1 ⟨6, 11⟩ [] rfl (by decide) rfl rfl

end MagentaSnake
